import Mathlib

/-!
Shallow embedding of `obo_server.py`, a read-only FastAPI service over a
Postgres store of flashcard decks and cards, together with proofs about the
four request handlers (`health`, `list_decks`, `get_deck`, `metrics`).

Modelling conventions:
* Rows of the two tables are Lean structures; the store is a pair of row lists.
* Each handler issues a fixed sequence of queries on a pool connection.  A
  `Conn` carries the store plus a fault script: for the n-th query the handler
  issues, `faults.getD n none = some msg` means the driver raises an exception
  with text `msg` instead of executing the query; `none` means the query runs
  against the store with the usual SQL semantics.  The scalar result of the
  health probe `SELECT 1` is carried separately (`select1`), since an honest
  driver always returns 1 while the code also branches on other values.
* The global `pool` variable is `Option Conn`; `none` is the uninitialized
  state in which `_require_pool` raises `RuntimeError`.
* Python exceptions escaping a handler, re-raised `HTTPException`s, and
  returned `JSONResponse` error bodies are distinguished constructors of each
  handler result type, mirroring what FastAPI receives from the coroutine.
-/

namespace OboServer

/-- Timestamp value stored in `created_at`; the handlers only ever call
`isoformat()` on it, so we model it by its ISO-8601 rendering. -/
structure Timestamp where
  iso : String
deriving Repr, DecidableEq

/-- Python `datetime.isoformat()`. -/
def Timestamp.isoformat (t : Timestamp) : String := t.iso

/-- One row of the `decks` table. -/
structure DeckRow where
  id : Int
  topic : String
  age_range : String
  voice : Option String
  card_count : Int
  created_at : Timestamp
deriving Repr, DecidableEq

/-- One row of the `cards` table. -/
structure CardRow where
  deck_id : Int
  position : Int
  question : String
  answer : String
deriving Repr, DecidableEq

/-- The relational store the service reads: the `decks` and `cards` tables. -/
structure Store where
  decks : List DeckRow
  cards : List CardRow
deriving Repr, DecidableEq

/-- A pool connection as one request observes it: the store, the fault script
for the successive queries the handler issues, and the value the driver hands
back for the scalar probe `SELECT 1` when it does not raise. -/
structure Conn where
  store : Store
  faults : List (Option String)
  select1 : Int
deriving Repr, DecidableEq

/-- Fault injected for the n-th query of the request, if any. -/
def Conn.fault (c : Conn) (n : Nat) : Option String :=
  c.faults.getD n none

/-- Python truthiness of the optional `age` query parameter: `None` and the
empty string are falsy, so `if age:` filters only for a non-empty string. -/
def isTruthy : Option String → Bool
  | none => false
  | some a => !(a == "")

/-- Ordering used by `ORDER BY id DESC`. -/
def deckDescOrder (a b : DeckRow) : Prop := b.id ≤ a.id

instance : DecidableRel deckDescOrder :=
  fun a b => inferInstanceAs (Decidable (b.id ≤ a.id))

instance : IsTotal DeckRow deckDescOrder :=
  ⟨fun a b => le_total b.id a.id⟩

instance : IsTrans DeckRow deckDescOrder :=
  ⟨fun _ _ _ h1 h2 => le_trans h2 h1⟩

/-- Ordering used by `ORDER BY position` (ascending). -/
def cardAscOrder (a b : CardRow) : Prop := a.position ≤ b.position

instance : DecidableRel cardAscOrder :=
  fun a b => inferInstanceAs (Decidable (a.position ≤ b.position))

instance : IsTotal CardRow cardAscOrder :=
  ⟨fun a b => le_total a.position b.position⟩

instance : IsTrans CardRow cardAscOrder :=
  ⟨fun _ _ _ h1 h2 => le_trans h1 h2⟩

/-- Semantics of `ORDER BY id DESC` on a list of deck rows. -/
def sortDecksDesc (l : List DeckRow) : List DeckRow :=
  l.insertionSort deckDescOrder

/-- Semantics of `ORDER BY position` on a list of card rows. -/
def sortCardsAsc (l : List CardRow) : List CardRow :=
  l.insertionSort cardAscOrder

/-- The deck rows the `WHERE` clause of `list_decks` keeps: all rows when the
`age` parameter is falsy, otherwise the rows whose `age_range` equals the
parameter exactly (`WHERE age_range = $1`). -/
def matchingDecks (s : Store) (age : Option String) : List DeckRow :=
  match age with
  | none => s.decks
  | some a => if a == "" then s.decks else s.decks.filter (fun d => d.age_range == a)

/-- Semantics of the page query of `list_decks`:
`SELECT ... ORDER BY id DESC LIMIT $limit OFFSET $offset` over the matching
rows (OFFSET skips, then LIMIT caps). -/
def queryDeckPage (s : Store) (age : Option String) (limit offset : Int) : List DeckRow :=
  ((sortDecksDesc (matchingDecks s age)).drop offset.toNat).take limit.toNat

/-- Semantics of the count query of `list_decks`: `SELECT COUNT(*)` over the
matching rows. -/
def queryDeckCount (s : Store) (age : Option String) : Int :=
  (matchingDecks s age).length

/-- Semantics of `SELECT ... FROM decks WHERE id = $1` with `fetchrow`: the
matching row, or `None`. -/
def queryDeckById (s : Store) (deck_id : Int) : Option DeckRow :=
  s.decks.find? (fun d => d.id == deck_id)

/-- Semantics of
`SELECT position, question, answer FROM cards WHERE deck_id = $1 ORDER BY position`. -/
def queryCardsOf (s : Store) (deck_id : Int) : List CardRow :=
  sortCardsAsc (s.cards.filter (fun c => c.deck_id == deck_id))

/-- Response schema `CardResponse`. -/
structure CardResponse where
  position : Int
  question : String
  answer : String
deriving Repr, DecidableEq

/-- Response schema `DeckSummary`. -/
structure DeckSummary where
  id : Int
  topic : String
  age_range : String
  voice : Option String
  card_count : Int
  created_at : String
deriving Repr, DecidableEq

/-- Response schema `DeckDetail`. -/
structure DeckDetail where
  id : Int
  topic : String
  age_range : String
  voice : Option String
  card_count : Int
  created_at : String
  cards : List CardResponse
deriving Repr, DecidableEq

/-- The `DeckSummary(...)` construction in the `list_decks` comprehension. -/
def DeckRow.toSummary (d : DeckRow) : DeckSummary :=
  { id := d.id, topic := d.topic, age_range := d.age_range, voice := d.voice,
    card_count := d.card_count, created_at := d.created_at.isoformat }

/-- The `CardResponse(...)` construction in the `get_deck` comprehension. -/
def CardRow.toResponse (c : CardRow) : CardResponse :=
  { position := c.position, question := c.question, answer := c.answer }

/-- One labeled entry of the `/metrics` body. -/
structure Metric where
  key : String
  label : String
  value : Int
  unit : String
deriving Repr, DecidableEq

/-- Body of the `/health` response: the `status` and `database` fields of the
dict the handler builds. -/
structure HealthResponse where
  status : String
  database : String
deriving Repr, DecidableEq

/-- Outcome of one `list_decks` handler invocation. -/
inductive ListDecksResult where
  /-- Normal return of `DecksResponse(decks=..., total=...)`, serialized as 200. -/
  | ok (decks : List DeckSummary) (total : Int)
  /-- Return of `JSONResponse(status_code=500, content={"detail": detail})`. -/
  | dbError (status : Int) (detail : String)
  /-- A non-HTTP exception escaped the handler (left for the framework). -/
  | unhandled (msg : String)
deriving Repr, DecidableEq

/-- Outcome of one `get_deck` handler invocation. -/
inductive GetDeckResult where
  /-- Normal return of a `DeckDetail`, serialized as 200. -/
  | ok (d : DeckDetail)
  /-- An `HTTPException(status, detail)` re-raised out of the handler; FastAPI
  renders it as a response with that status. -/
  | httpError (status : Int) (detail : String)
  /-- Return of `JSONResponse(status_code=500, content={"detail": detail})`. -/
  | dbError (status : Int) (detail : String)
  /-- A non-HTTP exception escaped the handler (left for the framework). -/
  | unhandled (msg : String)
deriving Repr, DecidableEq

/-- Outcome of one `metrics` handler invocation. -/
inductive MetricsResult where
  /-- Normal return of `{"metrics": [...]}`, serialized as 200. -/
  | ok (metrics : List Metric)
  /-- Return of `JSONResponse(status_code=500, content={"metrics": metrics, "error": error})`. -/
  | dbError (status : Int) (metrics : List Metric) (error : String)
  /-- A non-HTTP exception escaped the handler (left for the framework). -/
  | unhandled (msg : String)
deriving Repr, DecidableEq

/-- Message of the `RuntimeError` raised by `_require_pool` on a `None` pool. -/
def uninitializedMsg : String := "Database pool not initialized"

/-- The `health` handler.  `_require_pool` runs inside the `try`, so the
`RuntimeError` of an uninitialized pool is caught by the dedicated
`except RuntimeError` arm; any other query failure is caught by the generic
arm.  The handler always returns a structured dict. -/
def health (pool : Option Conn) : HealthResponse :=
  match pool with
  | none => { status := "ok", database := "pool_not_initialized" }
  | some c =>
    match c.fault 0 with
    | some msg => { status := "degraded", database := "error: " ++ msg }
    | none =>
      { status := "ok",
        database := if c.select1 == 1 then "connected" else "unexpected" }

/-- The `list_decks` handler body.  `_require_pool` is called before the
`try`, so the uninitialized-pool `RuntimeError` escapes the handler.  Inside
the `try`, the page query is issued first and the count query second; any
exception from either is converted to a 500 `JSONResponse` whose detail embeds
the exception text. -/
def list_decks (pool : Option Conn) (age : Option String) (limit offset : Int) :
    ListDecksResult :=
  match pool with
  | none => .unhandled uninitializedMsg
  | some c =>
    match c.fault 0 with
    | some msg => .dbError 500 ("Database error: " ++ msg)
    | none =>
      let rows := queryDeckPage c.store age limit offset
      match c.fault 1 with
      | some msg => .dbError 500 ("Database error: " ++ msg)
      | none =>
        .ok (rows.map DeckRow.toSummary) (queryDeckCount c.store age)

/-- The `get_deck` handler body.  `_require_pool` is called before the `try`.
Inside the `try`: `fetchrow` for the deck (query 0); on a `None` row an
`HTTPException(404, f"Deck ... not found")` is raised, re-raised verbatim by
the `except HTTPException` arm; otherwise the cards query (query 1) runs and
the detail is built.  Any other exception becomes a 500 `JSONResponse`. -/
def get_deck (pool : Option Conn) (deck_id : Int) : GetDeckResult :=
  match pool with
  | none => .unhandled uninitializedMsg
  | some c =>
    match c.fault 0 with
    | some msg => .dbError 500 ("Database error: " ++ msg)
    | none =>
      match queryDeckById c.store deck_id with
      | none => .httpError 404 ("Deck " ++ toString deck_id ++ " not found")
      | some row =>
        match c.fault 1 with
        | some msg => .dbError 500 ("Database error: " ++ msg)
        | none =>
          .ok { id := row.id, topic := row.topic, age_range := row.age_range,
                voice := row.voice, card_count := row.card_count,
                created_at := row.created_at.isoformat,
                cards := (queryCardsOf c.store deck_id).map CardRow.toResponse }

/-- The `metrics` handler body.  `_require_pool` is called before the `try`.
Inside the `try`: the deck count (query 0) then the card count (query 1); any
exception from either becomes a `JSONResponse(status_code=500)` whose content
has an empty metrics list and an error field. -/
def metrics (pool : Option Conn) : MetricsResult :=
  match pool with
  | none => .unhandled uninitializedMsg
  | some c =>
    match c.fault 0 with
    | some msg => .dbError 500 [] ("Database error: " ++ msg)
    | none =>
      let total_decks := (c.store.decks.length : Int)
      match c.fault 1 with
      | some msg => .dbError 500 [] ("Database error: " ++ msg)
      | none =>
        let total_cards := (c.store.cards.length : Int)
        .ok [{ key := "total_decks", label := "Total Decks", value := total_decks, unit := "count" },
             { key := "total_cards", label := "Total Cards", value := total_cards, unit := "count" }]

/-- Result of routing a `/api/v1/decks` request: FastAPI validates the
declared `Query(50, ge=1, le=200)` and `Query(0, ge=0)` constraints before the
endpoint function runs, and rejects violations with its standard request
validation response, HTTP 422 Unprocessable Entity (no custom validation
handler is installed by this app). -/
inductive RoutedList where
  /-- Parameters passed validation; the handler ran with this outcome. -/
  | handled (r : ListDecksResult)
  /-- Parameter validation failed; the handler never ran. -/
  | validationError (status : Int)
deriving Repr, DecidableEq

/-- Route-level dispatch for `GET /api/v1/decks`: parameter validation, then
the handler. -/
def list_decks_route (pool : Option Conn) (age : Option String)
    (limit offset : Int) : RoutedList :=
  if 1 ≤ limit ∧ limit ≤ 200 ∧ 0 ≤ offset then
    .handled (list_decks pool age limit offset)
  else
    .validationError 422

/-! ### Concrete fixtures used by counterexamples and witnesses -/

/-- First sample deck (spec example, section 8). -/
def animalsDeck : DeckRow :=
  { id := 1, topic := "Animals", age_range := "6-8", voice := none,
    card_count := 3, created_at := ⟨"2024-01-01T00:00:00"⟩ }

/-- Second sample deck (spec example, section 8). -/
def spaceDeck : DeckRow :=
  { id := 2, topic := "Space", age_range := "9-11", voice := some "nova",
    card_count := 2, created_at := ⟨"2024-01-02T00:00:00"⟩ }

/-- Sample store with two decks and five cards; the cards of deck 1 are kept
out of position order in storage so the ORDER BY has observable effect. -/
def sampleStore : Store :=
  { decks := [animalsDeck, spaceDeck],
    cards :=
      [ { deck_id := 1, position := 2, question := "q2", answer := "a2" },
        { deck_id := 1, position := 1, question := "q1", answer := "a1" },
        { deck_id := 1, position := 3, question := "q3", answer := "a3" },
        { deck_id := 2, position := 1, question := "q4", answer := "a4" },
        { deck_id := 2, position := 2, question := "q5", answer := "a5" } ] }

/-- Connection whose driver never faults. -/
def cleanConn : Conn := { store := sampleStore, faults := [], select1 := 1 }

/-- Connection whose first query raises. -/
def faultConn : Conn :=
  { store := sampleStore, faults := [some "connection refused"], select1 := 1 }

/-- Connection whose first query succeeds and second query raises. -/
def faultSndConn : Conn :=
  { store := sampleStore, faults := [none, some "connection refused"], select1 := 1 }

/-- Store holding one deck whose denormalized `card_count` is 3 although it
has no card rows at all. -/
def driftStore : Store :=
  { decks := [ { id := 5, topic := "Oceans", age_range := "6-8", voice := none,
                 card_count := 3, created_at := ⟨"2024-03-05T00:00:00"⟩ } ],
    cards := [] }

/-- Fault-free connection onto `driftStore`. -/
def driftConn : Conn := { store := driftStore, faults := [], select1 := 1 }

/-! ### Claim C1 -/

/-- C1, counterexample to the claim as stated: when a database query of the
metrics operation fails, the handler returns
`JSONResponse(status_code=500, content={"metrics": [], "error": ...})`, so
the HTTP status is 500, not the 200 the claim asserts. -/
theorem C1_counterexample :
    metrics (some faultConn) = .dbError 500 [] "Database error: connection refused" ∧
    (500 : Int) ≠ 200 := by
  exact ⟨rfl, by decide⟩

/-- C1 (amended): for every invocation of the metrics operation in which a
database query fails, the call itself does not fail — the handler returns a
structured response whose body has an empty metrics list plus an error field
embedding the failure text — but the response status is 500, not 200. -/
theorem C1_amended (c : Conn) (msg : String)
    (h : c.fault 0 = some msg ∨ (c.fault 0 = none ∧ c.fault 1 = some msg)) :
    metrics (some c) = .dbError 500 [] ("Database error: " ++ msg) ∧
    ∀ m, metrics (some c) ≠ .unhandled m := by
  have hm : metrics (some c) = .dbError 500 [] ("Database error: " ++ msg) := by
    rcases h with h0 | ⟨h0, h1⟩
    · simp [metrics, h0]
    · simp [metrics, h0, h1]
  refine ⟨hm, fun m hc => ?_⟩
  rw [hm] at hc
  exact MetricsResult.noConfusion hc

/-- Witness instantiating `C1_amended` at a concrete faulting connection. -/
theorem C1_amended_witness :
    faultConn.fault 0 = some "connection refused" ∧
    metrics (some faultConn) = .dbError 500 [] ("Database error: " ++ "connection refused") :=
  ⟨rfl, (C1_amended faultConn "connection refused" (Or.inl rfl)).1⟩

/-! ### Claim C2 -/

/-- Case analysis of the amended health claim, in the amended wording: the
health operation always produces a structured result; with an uninitialized
pool it reports overall status "ok" with database "pool_not_initialized"
(distinct from a query failure, but not marked degraded); if the probe raises
it reports status "degraded" with the error text embedded; if the probe
returns the constant 1 it reports database "connected"; any other returned
value is reported as "unexpected". -/
def healthSpecCases (pool : Option Conn) : HealthResponse :=
  match pool with
  | none => { status := "ok", database := "pool_not_initialized" }
  | some c =>
    match c.fault 0 with
    | some e => { status := "degraded", database := "error: " ++ e }
    | none =>
      if c.select1 = 1 then { status := "ok", database := "connected" }
      else { status := "ok", database := "unexpected" }

/-- C2, counterexample to the claim as stated: with an uninitialized pool the
health handler reports overall status "ok" (the dict is built with status
"ok" and only the database field switched to "pool_not_initialized"), not the
degraded status the spec asserts for this case. -/
theorem C2_counterexample :
    health none = { status := "ok", database := "pool_not_initialized" } ∧
    (health none).status ≠ "degraded" := by
  exact ⟨rfl, by decide⟩

/-- C2 (amended): the health operation never raises — for every pool state it
returns a structured result equal to the case analysis of `healthSpecCases`
(uninitialized pool: status "ok" with database "pool_not_initialized", a
non-fatal indicator distinct from a query failure but not marked degraded;
probe raises: status "degraded" with the error text embedded; probe returns
1: "connected"; any other value: "unexpected"). -/
theorem C2_amended :
    (∀ pool, health pool = healthSpecCases pool) ∧
    (∀ (c : Conn) (msg : String), c.fault 0 = some msg →
      health none ≠ health (some c)) := by
  constructor
  · intro pool
    match pool with
    | none => rfl
    | some c =>
      simp only [health, healthSpecCases]
      cases hf : c.fault 0 with
      | some e => rfl
      | none =>
        by_cases h1 : c.select1 = 1
        · simp [h1]
        · simp [h1]
  · intro c msg hf h
    have hs : (health (some c)).status = "degraded" := by
      simp [health, hf]
    have hn : (health none).status = "ok" := rfl
    rw [h, hs] at hn
    exact absurd hn (by decide)

/-- Witness instantiating the distinctness part of `C2_amended` at a concrete
faulting connection. -/
theorem C2_amended_witness :
    faultConn.fault 0 = some "connection refused" ∧
    health none ≠ health (some faultConn) :=
  ⟨rfl, C2_amended.2 faultConn "connection refused" rfl⟩

/-! ### Claim C3 -/

/-- C3, counterexample to the claim as stated: with the pool uninitialized,
`_require_pool` raises its `RuntimeError` before the try block of each of the
three operations, so the exception escapes the handler unhandled instead of
being caught at the operation boundary and converted there to a generic 500
response (for metrics, in particular, no `JSONResponse` is produced). -/
theorem C3_counterexample :
    metrics none = .unhandled uninitializedMsg ∧
    list_decks none none 50 0 = .unhandled uninitializedMsg ∧
    get_deck none 7 = .unhandled uninitializedMsg ∧
    (∀ s ms e, metrics none ≠ .dbError s ms e) := by
  refine ⟨rfl, rfl, rfl, fun s ms e h => ?_⟩
  exact MetricsResult.noConfusion h

/-- C3 (amended): for every operation invoked before pool initialization
completes, the failure is the Uninitialized `RuntimeError` (message
"Database pool not initialized"), distinct from database-level errors; but it
is raised before the try block, so it is not caught at the operation boundary
and not converted by the handler to a 500 response — it escapes the handler
as an unhandled exception, left for the framework. -/
theorem C3_amended (age : Option String) (limit offset deck_id : Int) :
    list_decks none age limit offset = .unhandled uninitializedMsg ∧
    get_deck none deck_id = .unhandled uninitializedMsg ∧
    metrics none = .unhandled uninitializedMsg ∧
    (∀ s d, list_decks none age limit offset ≠ .dbError s d) ∧
    (∀ s d, get_deck none deck_id ≠ .dbError s d) ∧
    (∀ s ms e, metrics none ≠ .dbError s ms e) := by
  refine ⟨rfl, rfl, rfl, fun s d h => ?_, fun s d h => ?_, fun s ms e h => ?_⟩
  · exact ListDecksResult.noConfusion h
  · exact GetDeckResult.noConfusion h
  · exact MetricsResult.noConfusion h

/-! ### Claim C4 -/

/-- C4, counterexample to the claim as stated: a limit of 0 is rejected
before the handler runs, but with FastAPI standard request-validation status
422, not 400. -/
theorem C4_counterexample :
    list_decks_route (some cleanConn) none 0 0 = .validationError 422 ∧
    list_decks_route (some cleanConn) none 0 0 ≠ .validationError 400 := by
  exact ⟨rfl, by decide⟩

/-- C4 (amended): for every list-decks request whose limit is outside 1–200
or whose offset is negative, the request fails validation before the handler
— and hence before any database query — executes; the failure is reported to
the HTTP caller with status 422 (the framework validation response), not
400. -/
theorem C4_amended (pool : Option Conn) (age : Option String) (limit offset : Int)
    (h : ¬(1 ≤ limit ∧ limit ≤ 200 ∧ 0 ≤ offset)) :
    list_decks_route pool age limit offset = .validationError 422 ∧
    ∀ r, list_decks_route pool age limit offset ≠ .handled r := by
  have he : list_decks_route pool age limit offset = .validationError 422 := by
    simp [list_decks_route, h]
  refine ⟨he, fun r hc => ?_⟩
  rw [he] at hc
  exact RoutedList.noConfusion hc

/-- Witness instantiating `C4_amended` at limit 0. -/
theorem C4_amended_witness :
    ¬(1 ≤ (0 : Int) ∧ (0 : Int) ≤ 200 ∧ 0 ≤ (0 : Int)) ∧
    list_decks_route (some cleanConn) none 0 0 = .validationError 422 :=
  ⟨by decide, (C4_amended (some cleanConn) none 0 0 (by decide)).1⟩

/-! ### Claim C5 -/

/-- C5: for every deck identifier not matched by any stored row, `get_deck`
raises `HTTPException(404, f"Deck {deck_id} not found")`, which the dedicated
`except HTTPException` arm re-raises verbatim past the generic 500-conversion
catch, so the outcome is the 404 whose detail names the identifier and never
the 500 `JSONResponse`. -/
theorem C5_not_found (c : Conn) (deck_id : Int)
    (h0 : c.fault 0 = none)
    (habs : queryDeckById c.store deck_id = none) :
    get_deck (some c) deck_id =
      .httpError 404 ("Deck " ++ toString deck_id ++ " not found") ∧
    (∀ s d, get_deck (some c) deck_id ≠ .dbError s d) ∧
    (∃ pre post, "Deck " ++ toString deck_id ++ " not found" =
      pre ++ toString deck_id ++ post) := by
  have he : get_deck (some c) deck_id =
      .httpError 404 ("Deck " ++ toString deck_id ++ " not found") := by
    simp [get_deck, h0, habs]
  refine ⟨he, fun s d hc => ?_, ⟨"Deck ", " not found", rfl⟩⟩
  rw [he] at hc
  exact GetDeckResult.noConfusion hc

/-- Witness instantiating `C5_not_found` at identifier 99, which is absent
from the sample store. -/
theorem C5_not_found_witness :
    cleanConn.fault 0 = none ∧
    queryDeckById cleanConn.store 99 = none ∧
    get_deck (some cleanConn) 99 =
      .httpError 404 ("Deck " ++ toString (99 : Int) ++ " not found") :=
  ⟨rfl, by decide, (C5_not_found cleanConn 99 rfl (by decide)).1⟩

/-! ### Claim C9 -/

/-- C9: list-decks does not partially succeed — if the page-row fetch (query
0) or the count fetch (query 1) raises, the whole operation yields the single
500 `JSONResponse` whose detail embeds the underlying error text, and no
`DecksResponse` (rows plus total) is produced. -/
theorem C9_atomic (c : Conn) (age : Option String) (limit offset : Int) (msg : String)
    (h : c.fault 0 = some msg ∨ (c.fault 0 = none ∧ c.fault 1 = some msg)) :
    list_decks (some c) age limit offset = .dbError 500 ("Database error: " ++ msg) ∧
    (∃ pre, "Database error: " ++ msg = pre ++ msg) ∧
    (∀ decks total, list_decks (some c) age limit offset ≠ .ok decks total) := by
  have he : list_decks (some c) age limit offset =
      .dbError 500 ("Database error: " ++ msg) := by
    rcases h with h0 | ⟨h0, h1⟩
    · simp [list_decks, h0]
    · simp [list_decks, h0, h1]
  refine ⟨he, ⟨"Database error: ", rfl⟩, fun decks total hc => ?_⟩
  rw [he] at hc
  exact ListDecksResult.noConfusion hc

/-- Witness instantiating `C9_atomic` at a connection whose count query (the
second query) raises. -/
theorem C9_atomic_witness :
    (faultSndConn.fault 0 = none ∧ faultSndConn.fault 1 = some "connection refused") ∧
    list_decks (some faultSndConn) none 50 0 =
      .dbError 500 ("Database error: " ++ "connection refused") :=
  ⟨⟨rfl, rfl⟩, (C9_atomic faultSndConn none 50 0 "connection refused" (Or.inr ⟨rfl, rfl⟩)).1⟩

/-! ### Claim C10 -/

/-- C10: a deck present in the store but with zero card rows does not yield
NotFound — `get_deck` returns the detail with an empty cards sequence while
`card_count` is the stored denormalized value, which may be nonzero. -/
theorem C10_empty_cards (c : Conn) (deck_id : Int) (d : DeckRow)
    (hf : c.faults = [])
    (hd : queryDeckById c.store deck_id = some d)
    (hc : c.store.cards.filter (fun x => x.deck_id == deck_id) = []) :
    get_deck (some c) deck_id =
      .ok { id := d.id, topic := d.topic, age_range := d.age_range, voice := d.voice,
            card_count := d.card_count, created_at := d.created_at.isoformat,
            cards := [] } := by
  have h0 : c.fault 0 = none := by simp [Conn.fault, hf]
  have h1 : c.fault 1 = none := by simp [Conn.fault, hf]
  simp [get_deck, h0, h1, hd, queryCardsOf, hc, sortCardsAsc]

/-- Witness instantiating `C10_empty_cards` at the drifted store: the deck
detail carries the stored card_count 3 next to an empty cards list. -/
theorem C10_empty_cards_witness :
    driftConn.faults = [] ∧
    queryDeckById driftConn.store 5 =
      some { id := 5, topic := "Oceans", age_range := "6-8", voice := none,
             card_count := 3, created_at := ⟨"2024-03-05T00:00:00"⟩ } ∧
    driftConn.store.cards.filter (fun x => x.deck_id == 5) = [] ∧
    get_deck (some driftConn) 5 =
      .ok { id := 5, topic := "Oceans", age_range := "6-8", voice := none,
            card_count := 3, created_at := "2024-03-05T00:00:00",
            cards := [] } ∧
    (3 : Int) ≠ 0 :=
  ⟨rfl, by decide, rfl,
   C10_empty_cards driftConn 5
     { id := 5, topic := "Oceans", age_range := "6-8", voice := none,
       card_count := 3, created_at := ⟨"2024-03-05T00:00:00"⟩ }
     rfl (by decide) rfl,
   by decide⟩

/-! ### Ordering helper lemmas shared by the functional-correctness claims -/

/-- The rows kept by the WHERE clause form a sublist of the stored table. -/
theorem matchingDecks_sublist (s : Store) (age : Option String) :
    (matchingDecks s age).Sublist s.decks := by
  cases age with
  | none => exact List.Sublist.refl _
  | some a =>
    show (if (a == "") = true then s.decks
      else s.decks.filter (fun d => d.age_range == a)).Sublist s.decks
    by_cases hcase : (a == "") = true
    · rw [if_pos hcase]
    · rw [if_neg hcase]
      exact List.filter_sublist _

/-- The ORDER BY id DESC result is pairwise descending (weakly). -/
theorem sortDecksDesc_sorted (l : List DeckRow) :
    (sortDecksDesc l).Pairwise deckDescOrder :=
  List.sorted_insertionSort deckDescOrder l

/-- The ORDER BY id DESC result is a permutation of its input. -/
theorem sortDecksDesc_perm (l : List DeckRow) : (sortDecksDesc l).Perm l :=
  List.perm_insertionSort deckDescOrder l

/-- A LIMIT/OFFSET page is a sublist of the full ordered result. -/
theorem page_sublist {α : Type} (l : List α) (li off : Nat) :
    ((l.drop off).take li).Sublist l :=
  (List.take_sublist _ _).trans (List.drop_sublist _ _)

/-- If the stored deck identifiers are distinct, so are those of the ordered
filtered result. -/
theorem sortDecksDesc_ids_nodup (s : Store) (age : Option String)
    (h : (s.decks.map DeckRow.id).Nodup) :
    ((sortDecksDesc (matchingDecks s age)).map DeckRow.id).Nodup := by
  have h1 : ((matchingDecks s age).map DeckRow.id).Nodup :=
    h.sublist ((matchingDecks_sublist s age).map DeckRow.id)
  exact ((sortDecksDesc_perm (matchingDecks s age)).map DeckRow.id).symm.nodup h1

/-- The ORDER BY position result is pairwise ascending (weakly). -/
theorem sortCardsAsc_sorted (l : List CardRow) :
    (sortCardsAsc l).Pairwise cardAscOrder :=
  List.sorted_insertionSort cardAscOrder l

/-- The ORDER BY position result is a permutation of its input. -/
theorem sortCardsAsc_perm (l : List CardRow) : (sortCardsAsc l).Perm l :=
  List.perm_insertionSort cardAscOrder l

/-! ### Claim C6 -/

/-- C6: for every store, fault-free connection and valid limit/offset pair
(any age filter), list-decks returns at most `limit` summaries, and they are
exactly the contiguous slice, starting at index `offset`, of the full
filtered deck set ordered by identifier descending; with distinct stored
identifiers the returned page is strictly descending in id. -/
theorem C6_page_slice (c : Conn) (age : Option String) (limit offset : Int)
    (h1 : 1 ≤ limit) (h2 : limit ≤ 200) (h3 : 0 ≤ offset)
    (hf : c.faults = [])
    (hid : (c.store.decks.map DeckRow.id).Nodup) :
    ∃ decks total,
      list_decks (some c) age limit offset = .ok decks total ∧
      decks.length ≤ limit.toNat ∧
      decks = (((sortDecksDesc (matchingDecks c.store age)).drop offset.toNat).take
        limit.toNat).map DeckRow.toSummary ∧
      (decks.map DeckSummary.id).Pairwise (fun x y => y < x) := by
  have hf0 : c.fault 0 = none := by simp [Conn.fault, hf]
  have hf1 : c.fault 1 = none := by simp [Conn.fault, hf]
  refine ⟨(queryDeckPage c.store age limit offset).map DeckRow.toSummary,
          queryDeckCount c.store age, ?_, ?_, ?_, ?_⟩
  · simp [list_decks, hf0, hf1]
  · rw [List.length_map]
    unfold queryDeckPage
    exact List.length_take_le _ _
  · rfl
  · have hsorted :
        (((sortDecksDesc (matchingDecks c.store age)).drop offset.toNat).take
          limit.toNat).Pairwise deckDescOrder :=
      (sortDecksDesc_sorted _).sublist (page_sublist _ _ _)
    have hnd :
        ((((sortDecksDesc (matchingDecks c.store age)).drop offset.toNat).take
          limit.toNat).map DeckRow.id).Nodup :=
      (sortDecksDesc_ids_nodup c.store age hid).sublist
        ((page_sublist _ _ _).map DeckRow.id)
    have hne :
        (((sortDecksDesc (matchingDecks c.store age)).drop offset.toNat).take
          limit.toNat).Pairwise (fun a b => a.id ≠ b.id) :=
      List.pairwise_map.mp hnd
    have hstrict :
        (((sortDecksDesc (matchingDecks c.store age)).drop offset.toNat).take
          limit.toNat).Pairwise (fun a b => b.id < a.id) :=
      (hsorted.and hne).imp (fun h => lt_of_le_of_ne h.1 h.2.symm)
    unfold queryDeckPage
    exact List.pairwise_map.mpr (List.pairwise_map.mpr hstrict)

/-- Witness instantiating `C6_page_slice` on the sample store without filter,
limit 50, offset 0. -/
theorem C6_page_slice_witness :
    ((1 : Int) ≤ 50 ∧ (50 : Int) ≤ 200 ∧ (0 : Int) ≤ 0) ∧
    cleanConn.faults = [] ∧
    (cleanConn.store.decks.map DeckRow.id).Nodup ∧
    (∃ decks total,
      list_decks (some cleanConn) none 50 0 = .ok decks total ∧
      decks.length ≤ (50 : Int).toNat ∧
      decks = (((sortDecksDesc (matchingDecks cleanConn.store none)).drop
        (0 : Int).toNat).take (50 : Int).toNat).map DeckRow.toSummary ∧
      (decks.map DeckSummary.id).Pairwise (fun x y => y < x)) :=
  ⟨by decide, rfl, by decide,
   C6_page_slice cleanConn none 50 0 (by decide) (by decide) (by decide) rfl (by decide)⟩

/-! ### Claim C7 -/

/-- Total field of a list-decks outcome, when the handler returned normally. -/
def ListDecksResult.totalOf : ListDecksResult → Option Int
  | .ok _ t => some t
  | .dbError _ _ => none
  | .unhandled _ => none

/-- C7: on a fault-free connection, the total returned by list-decks with a
non-empty age filter equals the number of stored decks whose age_range is
exactly the filter string; without a filter it equals the number of all
stored decks; and in both cases the total does not depend on limit or
offset. -/
theorem C7_total (c : Conn) (limit offset limit2 offset2 : Int) (a : String)
    (hf : c.faults = []) (ha : a ≠ "") :
    (list_decks (some c) (some a) limit offset).totalOf =
      some ((c.store.decks.filter (fun d => d.age_range == a)).length : Int) ∧
    (list_decks (some c) none limit offset).totalOf =
      some ((c.store.decks.length : Int)) ∧
    (list_decks (some c) (some a) limit offset).totalOf =
      (list_decks (some c) (some a) limit2 offset2).totalOf ∧
    (list_decks (some c) none limit offset).totalOf =
      (list_decks (some c) none limit2 offset2).totalOf := by
  have hf0 : c.fault 0 = none := by simp [Conn.fault, hf]
  have hf1 : c.fault 1 = none := by simp [Conn.fault, hf]
  have hbeq : (a == "") = false := by
    rw [beq_eq_false_iff_ne]
    exact ha
  refine ⟨?_, ?_, ?_, ?_⟩ <;>
    simp [list_decks, hf0, hf1, ListDecksResult.totalOf, queryDeckCount,
      matchingDecks, hbeq]

/-- Witness instantiating `C7_total` on the sample store with filter "6-8"
(one matching deck of two) and two different limit/offset pairs. -/
theorem C7_total_witness :
    cleanConn.faults = [] ∧ ("6-8" : String) ≠ "" ∧
    (list_decks (some cleanConn) (some "6-8") 50 0).totalOf =
      some ((cleanConn.store.decks.filter (fun d => d.age_range == "6-8")).length : Int) ∧
    (list_decks (some cleanConn) none 50 0).totalOf =
      some ((cleanConn.store.decks.length : Int)) :=
  ⟨rfl, by decide,
   (C7_total cleanConn 50 0 1 1 "6-8" rfl (by decide)).1,
   (C7_total cleanConn 50 0 1 1 "6-8" rfl (by decide)).2.1⟩

/-! ### Claim C8 -/

/-- C8: for every deck present in the store, on a fault-free connection the
cards sequence of the get-deck detail consists of all cards whose deck_id is
that deck (as a permutation of the filtered card table) and, given that
positions are unique within the deck, is strictly ordered by position
ascending. -/
theorem C8_cards_ordered (c : Conn) (deck_id : Int) (d : DeckRow)
    (hf : c.faults = [])
    (hd : queryDeckById c.store deck_id = some d)
    (hpos : ((c.store.cards.filter (fun x => x.deck_id == deck_id)).map
      CardRow.position).Nodup) :
    ∃ detail,
      get_deck (some c) deck_id = .ok detail ∧
      detail.cards = (queryCardsOf c.store deck_id).map CardRow.toResponse ∧
      detail.cards.Perm ((c.store.cards.filter (fun x => x.deck_id == deck_id)).map
        CardRow.toResponse) ∧
      (detail.cards.map CardResponse.position).Pairwise (fun x y => x < y) := by
  have hf0 : c.fault 0 = none := by simp [Conn.fault, hf]
  have hf1 : c.fault 1 = none := by simp [Conn.fault, hf]
  refine ⟨{ id := d.id, topic := d.topic, age_range := d.age_range, voice := d.voice,
            card_count := d.card_count, created_at := d.created_at.isoformat,
            cards := (queryCardsOf c.store deck_id).map CardRow.toResponse },
          ?_, rfl, ?_, ?_⟩
  · simp [get_deck, hf0, hf1, hd]
  · exact (sortCardsAsc_perm _).map CardRow.toResponse
  · have hsorted : (queryCardsOf c.store deck_id).Pairwise cardAscOrder :=
      sortCardsAsc_sorted _
    have hnd : ((queryCardsOf c.store deck_id).map CardRow.position).Nodup :=
      ((sortCardsAsc_perm _).map CardRow.position).symm.nodup hpos
    have hne : (queryCardsOf c.store deck_id).Pairwise
        (fun a b => a.position ≠ b.position) :=
      List.pairwise_map.mp hnd
    have hstrict : (queryCardsOf c.store deck_id).Pairwise
        (fun a b => a.position < b.position) :=
      (hsorted.and hne).imp (fun h => lt_of_le_of_ne h.1 h.2)
    exact List.pairwise_map.mpr (List.pairwise_map.mpr hstrict)

/-- Witness instantiating `C8_cards_ordered` at deck 1 of the sample store,
whose three cards are stored out of position order. -/
theorem C8_cards_ordered_witness :
    cleanConn.faults = [] ∧
    queryDeckById cleanConn.store 1 = some animalsDeck ∧
    ((cleanConn.store.cards.filter (fun x => x.deck_id == 1)).map
      CardRow.position).Nodup ∧
    (∃ detail,
      get_deck (some cleanConn) 1 = .ok detail ∧
      detail.cards = (queryCardsOf cleanConn.store 1).map CardRow.toResponse ∧
      detail.cards.Perm ((cleanConn.store.cards.filter (fun x => x.deck_id == 1)).map
        CardRow.toResponse) ∧
      (detail.cards.map CardResponse.position).Pairwise (fun x y => x < y)) :=
  ⟨rfl, by decide, by decide,
   C8_cards_ordered cleanConn 1 animalsDeck rfl (by decide) (by decide)⟩

end OboServer
